import Mathlib

/-!
Verification of the cache-and-filter reconciliation logic of the `tuidoist`
terminal client, shallowly embedded from `src/tuidoist/api/__init__.py`,
`src/tuidoist/app.py` and `src/tuidoist/screens/__init__.py`.

Remote calls are modelled by oracle arguments: `none` stands for a call that
raised (network/HTTP error), `some x` for a call that returned `x` after the
transport-shape normalisation performed at the client boundary.  Python dicts
are modelled by association lists with in-place key update (`dictInsert`) and
first-match lookup (`dictGet`), which reproduces dict get/set semantics.
Calendar dates are modelled by their proleptic ordinal (an integer, as
returned by Python's `date.toordinal`), so that ordinal 1 is a Monday and
Python's `date.weekday()` is `(ordinal - 1) % 7`.
-/

/-- A Todoist project as decoded at the client boundary. -/
structure TProject where
  id : String
  name : String
  color : String
  deriving DecidableEq, Repr

/-- A Todoist label as decoded at the client boundary. -/
structure TLabel where
  id : String
  name : String
  color : String
  deriving DecidableEq, Repr

/-- A user-defined Todoist filter object as decoded from the sync endpoint. -/
structure TFilter where
  id : String
  name : String
  query : String
  color : String
  deriving DecidableEq, Repr

/-- A Todoist task as decoded at the client boundary.  The `due` field is
`none` when the task has no due object; `some none` when a due object is
present but its `date` is missing, empty or fails ISO parsing; and
`some (some d)` when the due date parses to the day ordinal `d`. -/
structure TTask where
  id : String
  content : String
  project_id : String
  labels : List String
  due : Option (Option Int)
  priority : Nat
  deriving DecidableEq, Repr

/-- Python-dict insertion on an association list: update the entry in place
when the key is present, append at the end otherwise. -/
def dictInsert (m : List (String × String)) (k v : String) : List (String × String) :=
  match m with
  | [] => [(k, v)]
  | p :: rest => if p.1 = k then (k, v) :: rest else p :: dictInsert rest k v

/-- Python-dict lookup on an association list. -/
def dictGet (m : List (String × String)) (k : String) : Option String :=
  match m with
  | [] => none
  | p :: rest => if p.1 = k then some p.2 else dictGet rest k

theorem dictGet_dictInsert_self (m : List (String × String)) (k v : String) :
    dictGet (dictInsert m k v) k = some v := by
  induction m with
  | nil => simp [dictInsert, dictGet]
  | cons p rest ih =>
      by_cases h : p.1 = k
      · simp [dictInsert, dictGet, h]
      · simp [dictInsert, dictGet, h, ih]

theorem dictGet_dictInsert_ne (m : List (String × String)) (k v k' : String)
    (h : k' ≠ k) : dictGet (dictInsert m k v) k' = dictGet m k' := by
  have h' : ¬k = k' := fun hh => h hh.symm
  induction m with
  | nil => simp [dictInsert, dictGet, h, h']
  | cons p rest ih =>
      by_cases hp : p.1 = k
      · simp [dictInsert, dictGet, hp, h, h']
      · by_cases hp' : p.1 = k'
        · simp [dictInsert, dictGet, hp, hp', h, h']
        · simp [dictInsert, dictGet, hp, hp', h, h', ih]

/-- Python's `date.weekday()` on a day ordinal: 0 is Monday, 6 is Sunday. -/
def weekday (d : Int) : Int := (d - 1) % 7

/-- Monday of the week containing `today`, as computed in
`_apply_client_side_filter`: `today - timedelta(days=today.weekday())`. -/
def startOfWeek (today : Int) : Int := today - weekday today

/-- Sunday of the week containing `today`: `start_of_week + timedelta(days=6)`. -/
def endOfWeek (today : Int) : Int := startOfWeek today + 6

/-- The due-date ordinal of a task, when the task has a parsable due date. -/
def taskDueDate (t : TTask) : Option Int :=
  match t.due with
  | some (some d) => some d
  | _ => none

/-- The built-in filter keywords handled client-side
(`built_in_filters` in `fetch_tasks_with_filter`). -/
def builtInFilters : List String := ["today", "overdue", "this_week"]

/-- The per-task test of `TodoistClient._apply_client_side_filter`:
`include_task` as a function of the query and the task.  A task whose due
date is absent or fails to parse is skipped (the Python `continue` fires
before the append), and an unknown query keeps every task. -/
def taskMatchesBuiltIn (today : Int) (filter_query : String) (task : TTask) : Bool :=
  if filter_query = "today" then
    match task.due with
    | some (some d) => d = today
    | _ => false
  else if filter_query = "overdue" then
    match task.due with
    | some (some d) => decide (d < today)
    | _ => false
  else if filter_query = "this_week" then
    match task.due with
    | some (some d) => decide (startOfWeek today ≤ d ∧ d ≤ endOfWeek today)
    | _ => false
  else true

/-- `TodoistClient._apply_client_side_filter`: an empty query returns the
input list, otherwise keep the tasks passing `taskMatchesBuiltIn`. -/
def applyClientSideFilter (tasks : List TTask) (filter_query : String) (today : Int) :
    List TTask :=
  if filter_query = "" then tasks
  else tasks.filter (taskMatchesBuiltIn today filter_query)

theorem mem_applyClientSideFilter_today (ts : List TTask) (today : Int) (t : TTask) :
    t ∈ applyClientSideFilter ts "today" today ↔ t ∈ ts ∧ taskDueDate t = some today := by
  have : applyClientSideFilter ts "today" today = ts.filter (taskMatchesBuiltIn today "today") := by
    simp [applyClientSideFilter]
  rw [this, List.mem_filter]
  refine and_congr_right fun _ => ?_
  rcases t with ⟨id, content, pid, ls, due, prio⟩
  rcases due with _ | d
  · simp [taskMatchesBuiltIn, taskDueDate]
  · rcases d with _ | d <;> simp [taskMatchesBuiltIn, taskDueDate]

theorem mem_applyClientSideFilter_overdue (ts : List TTask) (today : Int) (t : TTask) :
    t ∈ applyClientSideFilter ts "overdue" today ↔
      t ∈ ts ∧ ∃ d, taskDueDate t = some d ∧ d < today := by
  have : applyClientSideFilter ts "overdue" today
      = ts.filter (taskMatchesBuiltIn today "overdue") := by
    simp [applyClientSideFilter]
  rw [this, List.mem_filter]
  refine and_congr_right fun _ => ?_
  rcases t with ⟨id, content, pid, ls, due, prio⟩
  rcases due with _ | d
  · simp [taskMatchesBuiltIn, taskDueDate]
  · rcases d with _ | d <;> simp [taskMatchesBuiltIn, taskDueDate]

theorem mem_applyClientSideFilter_this_week (ts : List TTask) (today : Int) (t : TTask) :
    t ∈ applyClientSideFilter ts "this_week" today ↔
      t ∈ ts ∧ ∃ d, taskDueDate t = some d ∧ startOfWeek today ≤ d ∧ d ≤ endOfWeek today := by
  have : applyClientSideFilter ts "this_week" today
      = ts.filter (taskMatchesBuiltIn today "this_week") := by
    simp [applyClientSideFilter]
  rw [this, List.mem_filter]
  refine and_congr_right fun _ => ?_
  rcases t with ⟨id, content, pid, ls, due, prio⟩
  rcases due with _ | d
  · simp [taskMatchesBuiltIn, taskDueDate]
  · rcases d with _ | d <;> simp [taskMatchesBuiltIn, taskDueDate]

theorem startOfWeek_isMonday (today : Int) : weekday (startOfWeek today) = 0 := by
  simp only [weekday, startOfWeek]
  omega

theorem endOfWeek_isSunday (today : Int) : weekday (endOfWeek today) = 6 := by
  simp only [weekday, startOfWeek, endOfWeek]
  omega

theorem today_mem_week (today : Int) :
    startOfWeek today ≤ today ∧ today ≤ endOfWeek today := by
  simp only [weekday, startOfWeek, endOfWeek]
  omega

/-- The mutable state of `TodoistClient` (`TodoistClient.__init__`).  `api` is
true exactly when an API token was present at construction (`self.api is not
None`); since the token is a non-empty string whenever present, the same flag
also stands for the `TODOIST_API_TOKEN` truthiness test used by
`fetch_filters` and `fetch_tasks_with_user_filter`. -/
structure TodoistClient where
  api : Bool
  project_name_map : List (String × String)
  label_name_map : List (String × String)
  label_color_map : List (String × String)
  label_by_name : List (String × String)
  projects_cache : List TProject
  labels_cache : List TLabel
  tasks_cache : List TTask
  filters_cache : List TFilter
  filter_name_map : List (String × String)
  deriving DecidableEq, Repr

/-- A freshly constructed client: every cache and index starts empty. -/
def initClient (tokenPresent : Bool) : TodoistClient where
  api := tokenPresent
  project_name_map := []
  label_name_map := []
  label_color_map := []
  label_by_name := []
  projects_cache := []
  labels_cache := []
  tasks_cache := []
  filters_cache := []
  filter_name_map := []

/-- `TodoistClient.fetch_projects`: on success rebuild the id-to-name index
from scratch and swap the cache; on failure (or with no token) return the
empty list and leave the state alone. -/
def fetch_projects (c : TodoistClient) (remote : Option (List TProject)) :
    TodoistClient × List TProject :=
  if c.api = false then (c, [])
  else
    match remote with
    | none => (c, [])
    | some projects =>
        ({ c with
            project_name_map := projects.foldl (fun m p => dictInsert m p.id p.name) []
            projects_cache := projects },
         projects)

/-- The loop body of `TodoistClient.fetch_labels`: one pass over the fetched
labels filling the id-to-name, id-to-color and name-to-name maps. -/
def buildLabelMaps (labels : List TLabel)
    (acc : List (String × String) × List (String × String) × List (String × String)) :
    List (String × String) × List (String × String) × List (String × String) :=
  labels.foldl
    (fun a l =>
      (dictInsert a.1 l.id l.name, dictInsert a.2.1 l.id l.color,
       dictInsert a.2.2 l.name l.name))
    acc

/-- `TodoistClient.fetch_labels`. -/
def fetch_labels (c : TodoistClient) (remote : Option (List TLabel)) :
    TodoistClient × List TLabel :=
  if c.api = false then (c, [])
  else
    match remote with
    | none => (c, [])
    | some labels =>
        let maps := buildLabelMaps labels ([], [], [])
        ({ c with
            label_name_map := maps.1
            label_color_map := maps.2.1
            label_by_name := maps.2.2
            labels_cache := labels },
         labels)

/-- `TodoistClient.fetch_filters`. -/
def fetch_filters (c : TodoistClient) (remote : Option (List TFilter)) :
    TodoistClient × List TFilter :=
  if c.api = false then (c, [])
  else
    match remote with
    | none => (c, [])
    | some filters =>
        ({ c with
            filters_cache := filters
            filter_name_map := filters.foldl (fun m f => dictInsert m f.id f.name) [] },
         filters)

/-- `TodoistClient.fetch_tasks`. -/
def fetch_tasks (c : TodoistClient) (remote : Option (List TTask)) :
    TodoistClient × List TTask :=
  if c.api = false then (c, [])
  else
    match remote with
    | none => (c, [])
    | some tasks => ({ c with tasks_cache := tasks }, tasks)

/-- `TodoistClient.fetch_tasks_with_user_filter`: fetch the full task list
over REST, send the query verbatim to the sync endpoint (`syncIds` is the
oracle for `sync q`), and keep the tasks whose id is among the returned item
ids.  Either failure is swallowed and answered by a plain `fetch_tasks`
fallback, which re-runs the REST call. -/
def fetch_tasks_with_user_filter (c : TodoistClient) (rest : Option (List TTask))
    (syncIds : Option (List String)) : TodoistClient × List TTask :=
  if c.api = false then (c, [])
  else
    match rest with
    | none => fetch_tasks c rest
    | some all_tasks =>
        match syncIds with
        | none => fetch_tasks c rest
        | some ids => (c, all_tasks.filter (fun t => ids.contains t.id))

/-- `TodoistClient.fetch_tasks_with_filter`: built-in keywords are evaluated
client-side over a fresh full fetch; any other query goes through
`fetch_tasks_with_user_filter`.  In both non-raising paths the result is
assigned to `tasks_cache`. -/
def fetch_tasks_with_filter (c : TodoistClient) (filter_query : String) (today : Int)
    (rest : Option (List TTask)) (sync : String → Option (List String)) :
    TodoistClient × List TTask :=
  if c.api = false then (c, [])
  else if builtInFilters.contains filter_query then
    match rest with
    | none => (c, [])
    | some tasks =>
        let filtered := applyClientSideFilter tasks filter_query today
        ({ c with tasks_cache := filtered }, filtered)
  else
    let r := fetch_tasks_with_user_filter c rest (sync filter_query)
    ({ r.1 with tasks_cache := r.2 }, r.2)

/-- `TodoistClient.complete_task`: true on remote success, no state change. -/
def complete_task (c : TodoistClient) (task_id : String) (remoteOk : Bool) : Bool :=
  c.api && remoteOk

/-- `TodoistClient.delete_task`: true on remote success, no state change. -/
def delete_task (c : TodoistClient) (task_id : String) (remoteOk : Bool) : Bool :=
  c.api && remoteOk

/-- `TodoistClient.add_task_quick`: the created task as the server reports
it, `none` without a token or on failure. -/
def add_task_quick (c : TodoistClient) (text : String) (remote : Option TTask) :
    Option TTask :=
  if c.api = false then none else remote

/-- `TodoistClient.update_task`. -/
def update_task (c : TodoistClient) (task_id content : String)
    (due_string : Option String) (remote : Option TTask) : Option TTask :=
  if c.api = false then none else remote

/-- `TodoistClient.move_task`. -/
def move_task (c : TodoistClient) (task_id project_id : String) (remoteOk : Bool) : Bool :=
  c.api && remoteOk

/-- `TodoistClient.update_task_labels`: on remote success it refreshes the
task cache with a full `fetch_tasks` before returning true. -/
def update_task_labels (c : TodoistClient) (task_id : String)
    (label_names : List String) (remoteOk : Bool) (rest : Option (List TTask)) :
    TodoistClient × Bool :=
  if c.api = false then (c, false)
  else if remoteOk then ((fetch_tasks c rest).1, true)
  else (c, false)

/-- `TodoistClient.create_label`: on success the server answers with the
created label, and the client inserts its id, name and color into the three
label indices.  `labels_cache` is not touched. -/
def create_label (c : TodoistClient) (name color : String) (remote : Option TLabel) :
    TodoistClient × Bool :=
  if c.api = false then (c, false)
  else
    match remote with
    | none => (c, false)
    | some new_label =>
        ({ c with
            label_name_map := dictInsert c.label_name_map new_label.id new_label.name
            label_color_map := dictInsert c.label_color_map new_label.id new_label.color
            label_by_name := dictInsert c.label_by_name new_label.name new_label.name },
         true)

/-- `TodoistClient.get_project_name`. -/
def get_project_name (c : TodoistClient) (project_id : String) : String :=
  (dictGet c.project_name_map project_id).getD "Unknown Project"

/-- `TodoistClient.get_label_name`: falls back to the id itself. -/
def get_label_name (c : TodoistClient) (label_id : String) : String :=
  (dictGet c.label_name_map label_id).getD label_id

/-- `TodoistClient.get_label_color`. -/
def get_label_color (c : TodoistClient) (label_id : String) : Option String :=
  dictGet c.label_color_map label_id

/-- `TodoistClient.get_filter_name`. -/
def get_filter_name (c : TodoistClient) (filter_id : String) : String :=
  (dictGet c.filter_name_map filter_id).getD ("Filter " ++ filter_id)

/-- The app-level state of `TodoistTUI` relevant to the claims: the client,
the project/filter selectors, and the keys of the rows currently shown in
the task table (row keys are task ids: `table.add_row(..., key=task.id)`). -/
structure AppModel where
  client : TodoistClient
  active_project_id : Option String
  active_filter : Option String
  active_filter_name : String
  table_rows : List String
  deriving DecidableEq, Repr

/-- The task list `_refresh_table_display` renders: the task cache, narrowed
to the active project when one is set. -/
def tasks_to_show (c : TodoistClient) (active_project_id : Option String) : List TTask :=
  match active_project_id with
  | none => c.tasks_cache
  | some pid => c.tasks_cache.filter (fun t => t.project_id == pid)

/-- Cache lookup by task id, as performed by the row-selection handlers and
`action_edit_task`. -/
def find_task_in_cache (c : TodoistClient) (task_id : String) : Option TTask :=
  c.tasks_cache.find? (fun t => t.id == task_id)

/-- `TodoistTUI.action_complete_task`: read the selected row key (the task
id), ask the client to complete it, and on success remove that row from the
displayed table.  Nothing else changes; in particular the client state is
left alone.  An absent selection, an empty id or a failed remote call only
rings the bell. -/
def action_complete_task (app : AppModel) (selected : Option String)
    (remoteOk : Bool) : AppModel :=
  match selected with
  | none => app
  | some row_key =>
      if (row_key != "") && complete_task app.client row_key remoteOk then
        { app with table_rows := app.table_rows.erase row_key }
      else app

/-- `DeleteConfirmScreen.on_button_pressed`: on confirm, delete remotely and
on success remove the row from the displayed table; on cancel or failure do
nothing (failure rings the bell). -/
def delete_confirm_pressed (app : AppModel) (task_id_str row_key : String)
    (confirm : Bool) (remoteOk : Bool) : AppModel :=
  if confirm then
    if delete_task app.client task_id_str remoteOk then
      { app with table_rows := app.table_rows.erase row_key }
    else app
  else app

/-- One round of remote answers, as seen by a refresh cycle. -/
structure Remote where
  projects : Option (List TProject)
  labels : Option (List TLabel)
  filters : Option (List TFilter)
  tasks : Option (List TTask)
  sync : String → Option (List String)

/-- The fetch calls a refresh cycle can make, listed in issue order. -/
inductive FetchEvent where
  | projects
  | labels
  | filters
  | tasksFull
  | tasksFiltered (query : String)
  deriving DecidableEq, Repr

/-- Modelled from the spec: `TodoistTUI.fetch_filtered_tasks` is called from
`action_refresh` but its definition is missing from the source tree.  Per
spec section 4.2, fetching with an active filter delegates to the client's
filter fetch (built-in keywords evaluated locally, anything else via the
sync endpoint) and then republishes the resulting list to the display. -/
def fetch_filtered_tasks (c : TodoistClient) (q : String) (today : Int)
    (rest : Option (List TTask)) (sync : String → Option (List String)) :
    TodoistClient × List TTask :=
  fetch_tasks_with_filter c q today rest sync

/-- Python truthiness of the optional filter selector, as tested by
`if self.active_filter:` in `action_refresh`: `None` and the empty string
are both falsy. -/
def filterActive (q : Option String) : Bool :=
  match q with
  | none => false
  | some s => s != ""

/-- `TodoistTUI.action_refresh`: one fetch round in source order — projects,
labels, filters, then tasks (filter-scoped through `fetch_filtered_tasks`
when a truthy filter is active, full otherwise; an empty-string selector is
falsy and takes the full-fetch branch).  The returned trace lists the fetch
calls in the order the method issues them. -/
def action_refresh (app : AppModel) (today : Int) (r : Remote) :
    AppModel × List FetchEvent :=
  let c1 := (fetch_projects app.client r.projects).1
  let c2 := (fetch_labels c1 r.labels).1
  let c3 := (fetch_filters c2 r.filters).1
  if filterActive app.active_filter then
    let q := app.active_filter.getD ""
    let c4 := (fetch_filtered_tasks c3 q today r.tasks r.sync).1
    ({ app with client := c4 },
     [FetchEvent.projects, FetchEvent.labels, FetchEvent.filters,
      FetchEvent.tasksFiltered q])
  else
    let c4 := (fetch_tasks c3 r.tasks).1
    ({ app with client := c4 },
     [FetchEvent.projects, FetchEvent.labels, FetchEvent.filters,
      FetchEvent.tasksFull])

/-- Modelled from the spec: `TodoistTUI.set_active_filter` is called from
`FilterSelectScreen.action_select_filter` but its definition is missing from
the source tree.  Per the spec's transition rule, selecting a filter stores
the selector and display name and triggers exactly one fetch round —
projects, labels, filters, then tasks, full when switching back to
Unfiltered — which is what `action_refresh` implements. -/
def set_active_filter (app : AppModel) (q : Option String) (name : String)
    (today : Int) (r : Remote) : AppModel × List FetchEvent :=
  action_refresh { app with active_filter := q, active_filter_name := name } today r

/-- `FilterSelectScreen.action_select_filter`: map the highlighted row to a
filter selection.  Rows 0 to 3 are the built-in entries (All Tasks, Today,
Next 7 Days, Overdue, passing the queries `today`, `7 days`, `overdue`),
row 4 is the separator, and rows from 5 on index the cached user filters,
selecting the filter's query string.  Display-name colour markup is not
modelled. -/
def action_select_filter (app : AppModel) (row : Option Nat) (today : Int)
    (r : Remote) : AppModel × List FetchEvent :=
  match row with
  | none => (app, [])
  | some row =>
      if row = 0 then set_active_filter app none "All Tasks" today r
      else if row = 1 then set_active_filter app (some "today") "Today" today r
      else if row = 2 then set_active_filter app (some "7 days") "Next 7 Days" today r
      else if row = 3 then set_active_filter app (some "overdue") "Overdue" today r
      else if row = 4 then (app, [])
      else
        match app.client.filters_cache[row - 5]? with
        | some f => set_active_filter app (some f.query) f.name today r
        | none => (app, [])

/-- A sample current date (an arbitrary day ordinal). -/
def sampleDay : Int := 739130

/-- A minimal task with the given id and no due date. -/
def mkTask (id : String) : TTask :=
  { id := id, content := "task " ++ id, project_id := "p1", labels := [], due := none,
    priority := 1 }

/-- A task due on `sampleDay`. -/
def taskDueToday : TTask :=
  { mkTask "1" with due := some (some sampleDay) }

/-- A task due the day before `sampleDay`. -/
def taskDueYesterday : TTask :=
  { mkTask "2" with due := some (some (sampleDay - 1)) }

/-- A task without a due date. -/
def taskNoDue : TTask := mkTask "3"

/-- C1: the built-in filters are evaluated locally over the task snapshot:
`today` keeps exactly the tasks whose due date equals the current date,
`overdue` exactly those whose due date is strictly before it, `this_week`
exactly those whose due date lies between the Monday and the Sunday
(inclusive) of the week containing the current date, and a task with no due
date is kept by none of the three. -/
theorem C1_builtin_filter_semantics (ts : List TTask) (today : Int) :
    (∀ t, t ∈ applyClientSideFilter ts "today" today ↔
        t ∈ ts ∧ taskDueDate t = some today)
  ∧ (∀ t, t ∈ applyClientSideFilter ts "overdue" today ↔
        t ∈ ts ∧ ∃ d, taskDueDate t = some d ∧ d < today)
  ∧ (∀ t, t ∈ applyClientSideFilter ts "this_week" today ↔
        t ∈ ts ∧ ∃ d, taskDueDate t = some d ∧
          startOfWeek today ≤ d ∧ d ≤ endOfWeek today)
  ∧ weekday (startOfWeek today) = 0
  ∧ weekday (endOfWeek today) = 6
  ∧ startOfWeek today ≤ today ∧ today ≤ endOfWeek today
  ∧ (∀ t, taskDueDate t = none →
        t ∉ applyClientSideFilter ts "today" today
      ∧ t ∉ applyClientSideFilter ts "overdue" today
      ∧ t ∉ applyClientSideFilter ts "this_week" today) := by
  refine ⟨mem_applyClientSideFilter_today ts today,
    mem_applyClientSideFilter_overdue ts today,
    mem_applyClientSideFilter_this_week ts today,
    startOfWeek_isMonday today, endOfWeek_isSunday today,
    (today_mem_week today).1, (today_mem_week today).2, ?_⟩
  intro t ht
  refine ⟨fun hm => ?_, fun hm => ?_, fun hm => ?_⟩
  · have := (mem_applyClientSideFilter_today ts today t).mp hm
    rw [ht] at this
    exact Option.noConfusion this.2
  · obtain ⟨-, d, hd, -⟩ := (mem_applyClientSideFilter_overdue ts today t).mp hm
    rw [ht] at hd
    exact Option.noConfusion hd
  · obtain ⟨-, d, hd, -⟩ := (mem_applyClientSideFilter_this_week ts today t).mp hm
    rw [ht] at hd
    exact Option.noConfusion hd

/-- C1 witness: on the three sample tasks, the `today` filter keeps exactly
the task due today. -/
theorem C1_builtin_filter_semantics_witness :
    taskDueToday ∈
      applyClientSideFilter [taskDueToday, taskDueYesterday, taskNoDue] "today" sampleDay :=
  ((C1_builtin_filter_semantics [taskDueToday, taskDueYesterday, taskNoDue]
      sampleDay).1 taskDueToday).mpr ⟨by decide, by decide⟩

/-- C9: for every task set and every current date, the tasks matched by the
built-in `today` filter and those matched by `overdue` are disjoint. -/
theorem C9_today_overdue_disjoint (ts : List TTask) (today : Int) :
    (applyClientSideFilter ts "today" today ∩
      applyClientSideFilter ts "overdue" today) = [] := by
  rw [List.eq_nil_iff_forall_not_mem]
  intro t hmem
  rw [List.mem_inter_iff] at hmem
  have h1 := (mem_applyClientSideFilter_today ts today t).mp hmem.1
  obtain ⟨-, d, hd, hlt⟩ := (mem_applyClientSideFilter_overdue ts today t).mp hmem.2
  rw [h1.2] at hd
  cases hd
  exact absurd hlt (lt_irrefl today)

/-- An initialized client whose cache holds five tasks from a prior
successful fetch. -/
def clientWithFiveTasks : TodoistClient :=
  { initClient true with
      tasks_cache := [mkTask "1", mkTask "2", mkTask "3", mkTask "4", mkTask "5"] }

/-- C3 counterexample: `fetch_tasks_with_filter` on a user-defined query
does not leave the cache untouched when a remote call fails.  With five
tasks cached, a failing sync call (REST fetch succeeding with one task)
replaces the cache with the full fetched list and reports that list instead
of a failure; and when the REST fetch itself fails, the cache is blanked to
the empty list. -/
theorem C3_counterexample :
    (fetch_tasks_with_filter clientWithFiveTasks "p1 & @home" 0 (some [mkTask "6"])
        (fun _ => none)).1.tasks_cache = [mkTask "6"]
  ∧ clientWithFiveTasks.tasks_cache ≠ [mkTask "6"]
  ∧ (fetch_tasks_with_filter clientWithFiveTasks "p1 & @home" 0 none
        (fun _ => none)).1.tasks_cache = []
  ∧ clientWithFiveTasks.tasks_cache.length = 5 := by decide

/-- C3 amended: the plain fetch operations (`fetch_projects`,
`fetch_labels`, `fetch_filters`, `fetch_tasks`) leave the client state
exactly as it was and report failure by returning the empty list when the
remote call fails, and `fetch_tasks_with_filter` does the same for built-in
queries; for a user-defined query, however, a failed sync call falls back
to a full task fetch that replaces `tasks_cache` with the full list, and a
failed task fetch replaces it with the empty list. -/
theorem C3_fetch_failure_behavior (c : TodoistClient) :
    fetch_projects c none = (c, [])
  ∧ fetch_labels c none = (c, [])
  ∧ fetch_filters c none = (c, [])
  ∧ fetch_tasks c none = (c, [])
  ∧ (∀ q today sync, builtInFilters.contains q = true →
       fetch_tasks_with_filter c q today none sync = (c, []))
  ∧ (∀ q today ts sync, c.api = true → builtInFilters.contains q = false →
       sync q = none →
       fetch_tasks_with_filter c q today (some ts) sync
         = ({ c with tasks_cache := ts }, ts))
  ∧ (∀ q today sync, c.api = true → builtInFilters.contains q = false →
       sync q = none →
       fetch_tasks_with_filter c q today none sync
         = ({ c with tasks_cache := [] }, [])) := by
  refine ⟨?_, ?_, ?_, ?_, ?_, ?_, ?_⟩
  · by_cases h : c.api = false <;> simp [fetch_projects, h]
  · by_cases h : c.api = false <;> simp [fetch_labels, h]
  · by_cases h : c.api = false <;> simp [fetch_filters, h]
  · by_cases h : c.api = false <;> simp [fetch_tasks, h]
  · intro q today sync hq
    have hq' : q ∈ builtInFilters := by simpa using hq
    by_cases h : c.api = false <;> simp [fetch_tasks_with_filter, h, hq']
  · intro q today ts sync hapi hq hsync
    have hq' : q ∉ builtInFilters := by simpa using hq
    simp [fetch_tasks_with_filter, hapi, hq', fetch_tasks_with_user_filter, hsync,
      fetch_tasks]
  · intro q today sync hapi hq hsync
    have hq' : q ∉ builtInFilters := by simpa using hq
    simp [fetch_tasks_with_filter, hapi, hq', fetch_tasks_with_user_filter, hsync,
      fetch_tasks]

/-- C3 witness: a failed plain task fetch leaves the five cached tasks in
place, and a failed built-in filter fetch does too. -/
theorem C3_fetch_failure_behavior_witness :
    fetch_tasks clientWithFiveTasks none = (clientWithFiveTasks, [])
  ∧ fetch_tasks_with_filter clientWithFiveTasks "today" 0 none (fun _ => none)
      = (clientWithFiveTasks, [])
  ∧ (fetch_tasks clientWithFiveTasks none).1.tasks_cache.length = 5 := by
  refine ⟨(C3_fetch_failure_behavior clientWithFiveTasks).2.2.2.1, ?_, ?_⟩
  · exact (C3_fetch_failure_behavior clientWithFiveTasks).2.2.2.2.1 "today" 0
      (fun _ => none) (by decide)
  · rw [(C3_fetch_failure_behavior clientWithFiveTasks).2.2.2.1]
    rfl

/-- An initialized app whose cache and table show two tasks. -/
def appWithTwoTasks : AppModel :=
  { client := { initClient true with tasks_cache := [mkTask "1", mkTask "2"] }
    active_project_id := none
    active_filter := none
    active_filter_name := "All Tasks"
    table_rows := ["1", "2"] }

/-- C4 counterexample: completing the cached task with id 1 (the remote
call succeeding) removes its row from the displayed table but removes
nothing from the cached Task collection: `tasks_cache` is unchanged and
still contains the completed task. -/
theorem C4_counterexample :
    (action_complete_task appWithTwoTasks (some "1") true).client.tasks_cache
        = [mkTask "1", mkTask "2"]
  ∧ mkTask "1" ∈ (action_complete_task appWithTwoTasks (some "1") true).client.tasks_cache
  ∧ (action_complete_task appWithTwoTasks (some "1") true).client.tasks_cache
        ≠ [mkTask "2"]
  ∧ (action_complete_task appWithTwoTasks (some "1") true).table_rows = ["2"] := by
  decide

/-- C4 amended: completing or deleting a selected task with a successful
remote call removes exactly that task's row from the displayed table,
without any refetch; the cached Task collection is left entirely unchanged,
so the completed or deleted task is not removed from `tasks_cache`. -/
theorem C4_complete_delete_row_only (app : AppModel) (row_key task_id_str : String)
    (hapi : app.client.api = true) (hk : row_key ≠ "") :
    action_complete_task app (some row_key) true
      = { app with table_rows := app.table_rows.erase row_key }
  ∧ (action_complete_task app (some row_key) true).client = app.client
  ∧ delete_confirm_pressed app task_id_str row_key true true
      = { app with table_rows := app.table_rows.erase row_key }
  ∧ (delete_confirm_pressed app task_id_str row_key true true).client = app.client := by
  have hcomp : action_complete_task app (some row_key) true
      = { app with table_rows := app.table_rows.erase row_key } := by
    simp [action_complete_task, complete_task, hapi, hk]
  have hdel : delete_confirm_pressed app task_id_str row_key true true
      = { app with table_rows := app.table_rows.erase row_key } := by
    simp [delete_confirm_pressed, delete_task, hapi]
  exact ⟨hcomp, by rw [hcomp], hdel, by rw [hdel]⟩

/-- C4 witness: completing the first of the two sample tasks erases its row
and nothing else. -/
theorem C4_complete_delete_row_only_witness :
    action_complete_task appWithTwoTasks (some "1") true
      = { appWithTwoTasks with table_rows := appWithTwoTasks.table_rows.erase "1" } :=
  (C4_complete_delete_row_only appWithTwoTasks "1" "1" rfl (by decide)).1

/-- The bidirectional index claimed by the spec, read on the only name-keyed
label map the client has (`label_by_name`): it would have to be the inverse
of the id-keyed `label_name_map`, restricted to cached labels. -/
def BidirectionalLabelIndex (c : TodoistClient) : Prop :=
  (∀ id n, dictGet c.label_name_map id = some n → dictGet c.label_by_name n = some id)
  ∧ (∀ n id, dictGet c.label_by_name n = some id → dictGet c.label_name_map id = some n)

/-- The consistency the code actually maintains between the id-keyed and the
name-keyed label maps: every name stored in `label_name_map` is a key of
`label_by_name` mapping to itself. -/
def LabelMapsAligned (nm bn : List (String × String)) : Prop :=
  ∀ id n, dictGet nm id = some n → dictGet bn n = some n

theorem labelMapsAligned_insert (nm bn : List (String × String)) (lid lname : String)
    (h : LabelMapsAligned nm bn) :
    LabelMapsAligned (dictInsert nm lid lname) (dictInsert bn lname lname) := by
  intro id n hid
  by_cases hidl : id = lid
  · subst hidl
    rw [dictGet_dictInsert_self] at hid
    obtain rfl : lname = n := Option.some.inj hid
    exact dictGet_dictInsert_self bn lname lname
  · rw [dictGet_dictInsert_ne nm lid lname id hidl] at hid
    have hbn := h id n hid
    by_cases hn : n = lname
    · subst hn
      exact dictGet_dictInsert_self bn n n
    · rw [dictGet_dictInsert_ne bn lname lname n hn]
      exact hbn

theorem buildLabelMaps_aligned (L : List TLabel)
    (nm cm bn : List (String × String)) (h : LabelMapsAligned nm bn) :
    LabelMapsAligned (buildLabelMaps L (nm, cm, bn)).1
      (buildLabelMaps L (nm, cm, bn)).2.2 := by
  induction L generalizing nm cm bn with
  | nil => simpa [buildLabelMaps] using h
  | cons l rest ih =>
      have hstep : buildLabelMaps (l :: rest) (nm, cm, bn)
          = buildLabelMaps rest
              (dictInsert nm l.id l.name, dictInsert cm l.id l.color,
               dictInsert bn l.name l.name) := by
        simp [buildLabelMaps]
      rw [hstep]
      exact ih _ _ _ (labelMapsAligned_insert nm bn l.id l.name h)

/-- The client state after fetching a single label (id 1001, name urgent). -/
def clientUrgentLabel : TodoistClient :=
  (fetch_labels (initClient true)
    (some [{ id := "1001", name := "urgent", color := "red" }])).1

/-- C5 counterexample: after fetching the label (id 1001, name urgent),
`label_name_map` maps the id to the name, but the only name-keyed map,
`label_by_name`, maps the name to itself rather than to the id, so the
claimed mutually inverse name-to-id/id-to-name pair does not exist. -/
theorem C5_counterexample :
    dictGet clientUrgentLabel.label_name_map "1001" = some "urgent"
  ∧ dictGet clientUrgentLabel.label_by_name "urgent" = some "urgent"
  ∧ ¬BidirectionalLabelIndex clientUrgentLabel := by
  refine ⟨by decide, by decide, fun h => ?_⟩
  have h1 := h.1 "1001" "urgent" (by decide)
  have h2 : dictGet clientUrgentLabel.label_by_name "urgent" = some "urgent" := by decide
  rw [h1] at h2
  exact absurd (Option.some.inj h2) (by decide)

/-- C5 amended: after every successful label fetch, and after every
successful label creation from a consistent state, the cache keeps the
id-keyed and the name-keyed label maps consistent in the direction the code
maintains: `label_by_name` sends every cached label name to itself (names,
not ids, are the identity the mutation API uses), and there is no
name-to-id reverse index. -/
theorem C5_label_maps_alignment (c : TodoistClient) (L : List TLabel)
    (name color : String) (nl : TLabel) (hapi : c.api = true) :
    LabelMapsAligned (fetch_labels c (some L)).1.label_name_map
      (fetch_labels c (some L)).1.label_by_name
  ∧ (LabelMapsAligned c.label_name_map c.label_by_name →
       LabelMapsAligned (create_label c name color (some nl)).1.label_name_map
         (create_label c name color (some nl)).1.label_by_name) := by
  constructor
  · have hfetch : (fetch_labels c (some L)).1.label_name_map
          = (buildLabelMaps L ([], [], [])).1
        ∧ (fetch_labels c (some L)).1.label_by_name
          = (buildLabelMaps L ([], [], [])).2.2 := by
      constructor <;> simp [fetch_labels, hapi]
    rw [hfetch.1, hfetch.2]
    exact buildLabelMaps_aligned L [] [] [] (by intro id n h; simp [dictGet] at h)
  · intro halign
    have hcreate : (create_label c name color (some nl)).1.label_name_map
          = dictInsert c.label_name_map nl.id nl.name
        ∧ (create_label c name color (some nl)).1.label_by_name
          = dictInsert c.label_by_name nl.name nl.name := by
      constructor <;> simp [create_label, hapi]
    rw [hcreate.1, hcreate.2]
    exact labelMapsAligned_insert c.label_name_map c.label_by_name nl.id nl.name halign

/-- C5 witness: the alignment evaluated after fetching the sample label. -/
theorem C5_label_maps_alignment_witness :
    dictGet clientUrgentLabel.label_by_name "urgent" = some "urgent" := by
  have h := C5_label_maps_alignment (initClient true)
      [{ id := "1001", name := "urgent", color := "red" }] "x" "charcoal"
      { id := "9", name := "x", color := "charcoal" } rfl
  exact h.1 "1001" "urgent" (by decide)

/-- C6 counterexample: starting from an empty label cache, a successful
`create_label("urgent", "red")` makes the id lookups answer correctly, yet
the new label is never inserted into the stored Label collection:
`labels_cache` stays empty. -/
theorem C6_counterexample :
    (create_label (initClient true) "urgent" "red"
        (some { id := "7", name := "urgent", color := "red" })).2 = true
  ∧ get_label_name (create_label (initClient true) "urgent" "red"
        (some { id := "7", name := "urgent", color := "red" })).1 "7" = "urgent"
  ∧ get_label_color (create_label (initClient true) "urgent" "red"
        (some { id := "7", name := "urgent", color := "red" })).1 "7" = some "red"
  ∧ (create_label (initClient true) "urgent" "red"
        (some { id := "7", name := "urgent", color := "red" })).1.labels_cache = []
  ∧ ({ id := "7", name := "urgent", color := "red" } : TLabel) ∉
      (create_label (initClient true) "urgent" "red"
        (some { id := "7", name := "urgent", color := "red" })).1.labels_cache := by
  decide

/-- C6 amended: after a successful `create_label(name, color)` answered by
the server with a fresh id, the new label is present in the derived indices
without discarding any existing entry, and `get_label_name` and
`get_label_color` answer `name` and `color` from the cache without any
further fetch; the stored Label collection `labels_cache` itself is left
unchanged, as are the other caches. -/
theorem C6_create_label_indices (c : TodoistClient) (name color id : String)
    (hapi : c.api = true) :
    (create_label c name color (some { id := id, name := name, color := color })).2 = true
  ∧ get_label_name
      (create_label c name color (some { id := id, name := name, color := color })).1 id
      = name
  ∧ get_label_color
      (create_label c name color (some { id := id, name := name, color := color })).1 id
      = some color
  ∧ (∀ k, k ≠ id →
      dictGet (create_label c name color
          (some { id := id, name := name, color := color })).1.label_name_map k
        = dictGet c.label_name_map k
    ∧ dictGet (create_label c name color
          (some { id := id, name := name, color := color })).1.label_color_map k
        = dictGet c.label_color_map k)
  ∧ (∀ k, k ≠ name →
      dictGet (create_label c name color
          (some { id := id, name := name, color := color })).1.label_by_name k
        = dictGet c.label_by_name k)
  ∧ (create_label c name color
      (some { id := id, name := name, color := color })).1.labels_cache = c.labels_cache
  ∧ (create_label c name color
      (some { id := id, name := name, color := color })).1.tasks_cache = c.tasks_cache
  ∧ (create_label c name color
      (some { id := id, name := name, color := color })).1.projects_cache
      = c.projects_cache := by
  have hc : (create_label c name color (some { id := id, name := name, color := color })).1
      = { c with
            label_name_map := dictInsert c.label_name_map id name
            label_color_map := dictInsert c.label_color_map id color
            label_by_name := dictInsert c.label_by_name name name } := by
    simp [create_label, hapi]
  refine ⟨by simp [create_label, hapi], ?_, ?_, ?_, ?_, ?_, ?_, ?_⟩
  · rw [hc]
    simp [get_label_name, dictGet_dictInsert_self]
  · rw [hc]
    simp [get_label_color, dictGet_dictInsert_self]
  · intro k hk
    rw [hc]
    exact ⟨dictGet_dictInsert_ne c.label_name_map id name k hk,
      dictGet_dictInsert_ne c.label_color_map id color k hk⟩
  · intro k hk
    rw [hc]
    exact dictGet_dictInsert_ne c.label_by_name name name k hk
  · rw [hc]
  · rw [hc]
  · rw [hc]

/-- C6 witness: creating the sample label on an empty cache. -/
theorem C6_create_label_indices_witness :
    get_label_name (create_label (initClient true) "urgent" "red"
        (some { id := "7", name := "urgent", color := "red" })).1 "7" = "urgent" :=
  (C6_create_label_indices (initClient true) "urgent" "red" "7" rfl).2.1

/-- C7: with no API token the client is not initialized and every remote
operation is a no-op: it returns the empty collection, `none` or `false`,
leaves the client state untouched, and gives the same answer whatever the
remote would have replied — no remote call is consulted, so no remote error
can surface. -/
theorem C7_uninitialized_noops (c : TodoistClient) (h : c.api = false) :
    (∀ r, fetch_projects c r = (c, []))
  ∧ (∀ r, fetch_labels c r = (c, []))
  ∧ (∀ r, fetch_filters c r = (c, []))
  ∧ (∀ r, fetch_tasks c r = (c, []))
  ∧ (∀ q today rest sync, fetch_tasks_with_filter c q today rest sync = (c, []))
  ∧ (∀ rest syncIds, fetch_tasks_with_user_filter c rest syncIds = (c, []))
  ∧ (∀ tid ok, complete_task c tid ok = false)
  ∧ (∀ tid ok, delete_task c tid ok = false)
  ∧ (∀ text r, add_task_quick c text r = none)
  ∧ (∀ tid content due r, update_task c tid content due r = none)
  ∧ (∀ tid pid ok, move_task c tid pid ok = false)
  ∧ (∀ tid ls ok rest, update_task_labels c tid ls ok rest = (c, false))
  ∧ (∀ name color r, create_label c name color r = (c, false)) := by
  refine ⟨fun r => by simp [fetch_projects, h], fun r => by simp [fetch_labels, h],
    fun r => by simp [fetch_filters, h], fun r => by simp [fetch_tasks, h],
    fun q today rest sync => by simp [fetch_tasks_with_filter, h],
    fun rest syncIds => by simp [fetch_tasks_with_user_filter, h],
    fun tid ok => by simp [complete_task, h], fun tid ok => by simp [delete_task, h],
    fun text r => by simp [add_task_quick, h],
    fun tid content due r => by simp [update_task, h],
    fun tid pid ok => by simp [move_task, h],
    fun tid ls ok rest => by simp [update_task_labels, h],
    fun name color r => by simp [create_label, h]⟩

/-- C7 witness: a token-less client ignores a would-be successful remote. -/
theorem C7_uninitialized_noops_witness :
    fetch_tasks (initClient false) (some [mkTask "1"]) = (initClient false, [])
  ∧ complete_task (initClient false) "1" true = false :=
  ⟨(C7_uninitialized_noops (initClient false) rfl).2.2.2.1 (some [mkTask "1"]),
   (C7_uninitialized_noops (initClient false) rfl).2.2.2.2.2.2.1 "1" true⟩

/-- C8: a filter selector that is none of the built-in keywords is sent
verbatim to the sync endpoint (the remote is consulted at exactly the given
query string) instead of being rejected locally, and the delivered result
is the freshly fetched full task list restricted to the returned item
identifiers — identifiers without a matching task are silently dropped. -/
theorem C8_user_query_forwarded (c : TodoistClient) (q : String) (today : Int)
    (allTasks : List TTask) (ids : List String) (sync : String → Option (List String))
    (hapi : c.api = true)
    (h1 : q ≠ "today") (h2 : q ≠ "overdue") (h3 : q ≠ "this_week")
    (hsync : sync q = some ids) :
    fetch_tasks_with_filter c q today (some allTasks) sync
      = ({ c with tasks_cache := allTasks.filter (fun t => ids.contains t.id) },
         allTasks.filter (fun t => ids.contains t.id))
  ∧ (∀ t, t ∈ (fetch_tasks_with_filter c q today (some allTasks) sync).2 ↔
        t ∈ allTasks ∧ t.id ∈ ids)
  ∧ (∀ i, i ∈ ids → (∀ t, t ∈ allTasks → t.id ≠ i) →
        ∀ t, t ∈ (fetch_tasks_with_filter c q today (some allTasks) sync).2 →
          t.id ≠ i) := by
  have hq : q ∉ builtInFilters := by simp [builtInFilters, h1, h2, h3]
  have heq : fetch_tasks_with_filter c q today (some allTasks) sync
      = ({ c with tasks_cache := allTasks.filter (fun t => ids.contains t.id) },
         allTasks.filter (fun t => ids.contains t.id)) := by
    simp [fetch_tasks_with_filter, hapi, hq, fetch_tasks_with_user_filter, hsync]
  have hmem : ∀ t, t ∈ (fetch_tasks_with_filter c q today (some allTasks) sync).2 ↔
      t ∈ allTasks ∧ t.id ∈ ids := by
    intro t
    rw [heq]
    simp [List.mem_filter]
  refine ⟨heq, hmem, fun i hi hnone t hmemt => ?_⟩
  intro hcontra
  exact hnone t ((hmem t).mp hmemt).1 hcontra

/-- C8 witness: an arbitrary query string reaches the sync oracle verbatim
and only the returned id that matches a fetched task survives. -/
theorem C8_user_query_forwarded_witness :
    (fetch_tasks_with_filter (initClient true) "assigned to: me" 0
        (some [mkTask "1", mkTask "2"])
        (fun s => if s = "assigned to: me" then some ["2", "99"] else none)).2
      = [mkTask "2"] := by
  have h := C8_user_query_forwarded (initClient true) "assigned to: me" 0
      [mkTask "1", mkTask "2"] ["2", "99"]
      (fun s => if s = "assigned to: me" then some ["2", "99"] else none)
      rfl (by decide) (by decide) (by decide) (by decide)
  rw [h.1]
  decide

/-- C10: a successful `fetch_tasks_with_filter` replaces `tasks_cache` with
exactly the filtered result and changes nothing else in the client, so the
full unfiltered snapshot is retained nowhere; the display selection and the
cache lookup by id subsequently see only the filtered subset. -/
theorem C10_filtered_fetch_replaces_cache (c : TodoistClient) (q : String)
    (today : Int) (ts : List TTask) (ids : List String)
    (sync : String → Option (List String)) (hapi : c.api = true) :
    (builtInFilters.contains q = true →
       fetch_tasks_with_filter c q today (some ts) sync
         = ({ c with tasks_cache := applyClientSideFilter ts q today },
            applyClientSideFilter ts q today))
  ∧ (builtInFilters.contains q = false → sync q = some ids →
       fetch_tasks_with_filter c q today (some ts) sync
         = ({ c with tasks_cache := ts.filter (fun t => ids.contains t.id) },
            ts.filter (fun t => ids.contains t.id)))
  ∧ (fetch_tasks_with_filter c q today (some ts) sync).1
      = { c with tasks_cache := (fetch_tasks_with_filter c q today (some ts) sync).2 }
  ∧ (∀ pid t, t ∈ tasks_to_show (fetch_tasks_with_filter c q today (some ts) sync).1 pid →
       t ∈ (fetch_tasks_with_filter c q today (some ts) sync).2)
  ∧ (∀ tid t,
       find_task_in_cache (fetch_tasks_with_filter c q today (some ts) sync).1 tid
         = some t →
       t ∈ (fetch_tasks_with_filter c q today (some ts) sync).2) := by
  have hstate : (fetch_tasks_with_filter c q today (some ts) sync).1
      = { c with tasks_cache := (fetch_tasks_with_filter c q today (some ts) sync).2 } := by
    by_cases hq : q ∈ builtInFilters
    · simp [fetch_tasks_with_filter, hapi, hq]
    · rcases hs : sync q with _ | ids2
      · simp [fetch_tasks_with_filter, hapi, hq, fetch_tasks_with_user_filter, hs,
          fetch_tasks]
      · simp [fetch_tasks_with_filter, hapi, hq, fetch_tasks_with_user_filter, hs]
  refine ⟨?_, ?_, hstate, ?_, ?_⟩
  · intro hq
    have hq' : q ∈ builtInFilters := by simpa using hq
    simp [fetch_tasks_with_filter, hapi, hq']
  · intro hq hsync
    have hq' : q ∉ builtInFilters := by simpa using hq
    simp [fetch_tasks_with_filter, hapi, hq', fetch_tasks_with_user_filter, hsync]
  · intro pid t hmem
    rcases pid with _ | pid
    · simpa [tasks_to_show, hstate] using hmem
    · rw [hstate] at hmem
      simp only [tasks_to_show] at hmem
      exact (List.mem_filter.mp hmem).1
  · intro tid t hfind
    rw [hstate] at hfind
    simp only [find_task_in_cache] at hfind
    exact List.mem_of_find?_eq_some hfind

/-- C10 witness: a built-in filtered fetch leaves only the matching task in
the cache and in the returned list. -/
theorem C10_filtered_fetch_replaces_cache_witness :
    fetch_tasks_with_filter (initClient true) "today" sampleDay
        (some [taskDueToday, taskDueYesterday, taskNoDue]) (fun _ => none)
      = ({ initClient true with tasks_cache := [taskDueToday] }, [taskDueToday]) := by
  have h := (C10_filtered_fetch_replaces_cache (initClient true) "today" sampleDay
      [taskDueToday, taskDueYesterday, taskNoDue] [] (fun _ => none) rfl).1 (by decide)
  rw [h]
  decide

theorem fetch_projects_api (c : TodoistClient) (r : Option (List TProject)) :
    (fetch_projects c r).1.api = c.api := by
  by_cases h : c.api = false
  · simp [fetch_projects, h]
  · rcases r with _ | ps <;> simp [fetch_projects, h]

theorem fetch_labels_api (c : TodoistClient) (r : Option (List TLabel)) :
    (fetch_labels c r).1.api = c.api := by
  by_cases h : c.api = false
  · simp [fetch_labels, h]
  · rcases r with _ | ls <;> simp [fetch_labels, h]

theorem fetch_filters_api (c : TodoistClient) (r : Option (List TFilter)) :
    (fetch_filters c r).1.api = c.api := by
  by_cases h : c.api = false
  · simp [fetch_filters, h]
  · rcases r with _ | fs <;> simp [fetch_filters, h]

/-- C2: selecting any effective row of the filter-selection screen (a
built-in entry or a cached user filter) triggers exactly one fetch round in
the order projects, labels, filters, tasks — filter-scoped for the Today,
Next 7 Days and Overdue rows and for user filters with a truthy query,
full for All Tasks and for a user filter whose stored query is the empty
(falsy) string — and selecting All Tasks re-fetches the full task list,
replacing the cache with the fresh result instead of reusing the previous
snapshot. -/
theorem C2_filter_selection_fetch_round (app : AppModel) (today : Int) (r : Remote)
    (hapi : app.client.api = true) :
    ((action_select_filter app (some 0) today r).2
       = [FetchEvent.projects, FetchEvent.labels, FetchEvent.filters,
          FetchEvent.tasksFull])
  ∧ (∀ ts, r.tasks = some ts →
       (action_select_filter app (some 0) today r).1.client.tasks_cache = ts)
  ∧ ((action_select_filter app (some 1) today r).2
       = [FetchEvent.projects, FetchEvent.labels, FetchEvent.filters,
          FetchEvent.tasksFiltered "today"])
  ∧ ((action_select_filter app (some 2) today r).2
       = [FetchEvent.projects, FetchEvent.labels, FetchEvent.filters,
          FetchEvent.tasksFiltered "7 days"])
  ∧ ((action_select_filter app (some 3) today r).2
       = [FetchEvent.projects, FetchEvent.labels, FetchEvent.filters,
          FetchEvent.tasksFiltered "overdue"])
  ∧ (∀ i f, app.client.filters_cache[i]? = some f → f.query ≠ "" →
       (action_select_filter app (some (i + 5)) today r).2
         = [FetchEvent.projects, FetchEvent.labels, FetchEvent.filters,
            FetchEvent.tasksFiltered f.query])
  ∧ (∀ i f, app.client.filters_cache[i]? = some f → f.query = "" →
       (action_select_filter app (some (i + 5)) today r).2
         = [FetchEvent.projects, FetchEvent.labels, FetchEvent.filters,
            FetchEvent.tasksFull]) := by
  refine ⟨?_, ?_, ?_, ?_, ?_, ?_, ?_⟩
  · simp [action_select_filter, set_active_filter, action_refresh, filterActive]
  · intro ts hts
    have h3 : (fetch_filters (fetch_labels (fetch_projects app.client r.projects).1
        r.labels).1 r.filters).1.api = true := by
      rw [fetch_filters_api, fetch_labels_api, fetch_projects_api]
      exact hapi
    simp [action_select_filter, set_active_filter, action_refresh, filterActive, hts,
      fetch_tasks, h3]
  · simp [action_select_filter, set_active_filter, action_refresh, filterActive]
  · simp [action_select_filter, set_active_filter, action_refresh, filterActive]
  · simp [action_select_filter, set_active_filter, action_refresh, filterActive]
  · intro i f hf hq
    have hrow : ¬(i + 5 = 0) ∧ ¬(i + 5 = 1) ∧ ¬(i + 5 = 2) ∧ ¬(i + 5 = 3)
        ∧ ¬(i + 5 = 4) := by omega
    have hidx : i + 5 - 5 = i := by omega
    have hact : filterActive (some f.query) = true := by simp [filterActive, hq]
    simp [action_select_filter, hrow.1, hrow.2.1, hrow.2.2.1, hrow.2.2.2.1,
      hrow.2.2.2.2, hidx, hf, set_active_filter, action_refresh, hact]
  · intro i f hf hq
    have hrow : ¬(i + 5 = 0) ∧ ¬(i + 5 = 1) ∧ ¬(i + 5 = 2) ∧ ¬(i + 5 = 3)
        ∧ ¬(i + 5 = 4) := by omega
    have hidx : i + 5 - 5 = i := by omega
    have hact : filterActive (some f.query) = false := by simp [filterActive, hq]
    simp [action_select_filter, hrow.1, hrow.2.1, hrow.2.2.1, hrow.2.2.2.1,
      hrow.2.2.2.2, hidx, hf, set_active_filter, action_refresh, hact]

/-- The remote answers used by the C2 witness. -/
def sampleRemote : Remote where
  projects := some [{ id := "p1", name := "Inbox", color := "grey" }]
  labels := some [{ id := "1001", name := "urgent", color := "red" }]
  filters := some [{ id := "f1", name := "Priority", query := "p1 | p2", color := "blue" }]
  tasks := some [mkTask "9"]
  sync := fun _ => some []

/-- C2 witness: selecting All Tasks on the sample app runs the full round
and replaces the two cached tasks with the freshly fetched list. -/
theorem C2_filter_selection_fetch_round_witness :
    (action_select_filter appWithTwoTasks (some 0) sampleDay sampleRemote).2
      = [FetchEvent.projects, FetchEvent.labels, FetchEvent.filters,
         FetchEvent.tasksFull]
  ∧ (action_select_filter appWithTwoTasks (some 0) sampleDay
        sampleRemote).1.client.tasks_cache = [mkTask "9"] :=
  ⟨(C2_filter_selection_fetch_round appWithTwoTasks sampleDay sampleRemote rfl).1,
   (C2_filter_selection_fetch_round appWithTwoTasks sampleDay sampleRemote rfl).2.1
     [mkTask "9"] rfl⟩
